import Mathlib

/-!
Shallow embedding of the soroban-ajo rotating-savings ("Ajo") contract:
the storage layer (`src/contracts/ajo/src/storage.rs`), the pure helpers
(`src/contracts/ajo/src/utils.rs`), and — where the contract crate's
remaining files are not part of the sources at hand — the lifecycle
operations as the specification describes them.

Addresses are modelled as natural numbers; Soroban's `u64`/`u32` machine
integers as `Nat` (with explicit checked arithmetic where overflow
matters) and `i128` as `Int` with explicit range checks.
-/

namespace Ajo

/-- Soroban addresses, modelled abstractly as natural numbers. -/
abbrev Address := Nat

/-- Modelled from the spec: the `Group` struct lives in
`src/contracts/ajo/src/types.rs`, which is not among the sources at hand;
fields follow spec section 3 and the uses in `utils.rs` and the tests. -/
structure Group where
  id : Nat
  creator : Address
  members : List Address
  contribution_amount : Int
  cycle_duration : Nat
  max_members : Nat
  current_cycle : Nat
  cycle_start_time : Nat
  is_complete : Bool
  is_cancelled : Bool
deriving DecidableEq, Repr

/-- Modelled from the spec: the error enum lives in
`src/contracts/ajo/src/errors.rs`, which is not among the sources at hand;
variants follow spec section 7 and the uses in `utils.rs` and the tests. -/
inductive AjoError where
  | ContributionAmountZero
  | ContributionAmountNegative
  | CycleDurationZero
  | MaxMembersBelowMinimum
  | GroupNotFound
  | AlreadyMember
  | GroupFull
  | NotMember
  | Unauthorized
  | GroupComplete
  | AlreadyContributed
  | IncompleteContributions
deriving DecidableEq, Repr

/-! ## Host values and the storage state

Soroban storage keys are host values: symbols, integers, addresses and
tuples of those.  Rust tuples of arity up to four are encoded as nested
pairs. -/

/-- Host value used as a storage key component. -/
inductive SVal where
  | sym : String → SVal
  | u64 : Nat → SVal
  | u32 : Nat → SVal
  | addr : Address → SVal
  | pr : SVal → SVal → SVal
deriving DecidableEq, Repr

/-- Values stored by this contract: `Group` records and booleans. -/
inductive StoreVal where
  | vGroup : Group → StoreVal
  | vBool : Bool → StoreVal
deriving DecidableEq, Repr

/-- The persistent-data environment: Soroban instance storage (the contract
uses it only for the `u64` group counter, keyed by a symbol) and persistent
storage (keyed by composite host values). -/
structure Store where
  inst : String → Option Nat
  persist : SVal → Option StoreVal

/-- The empty storage state: nothing was ever written. -/
def emptyStore : Store := ⟨fun _ => none, fun _ => none⟩

/-- Key used by `store_group` / `get_group` / `remove_group`:
`(symbol_short!("GROUP"), group_id)`. -/
def groupKey (group_id : Nat) : SVal :=
  .pr (.sym "GROUP") (.u64 group_id)

/-- Key used by `store_contribution` / `has_contributed`:
`(symbol_short!("CONTRIB"), group_id, cycle, member)`. -/
def contribKey (group_id : Nat) (cycle : Nat) (member : Address) : SVal :=
  .pr (.sym "CONTRIB") (.pr (.u64 group_id) (.pr (.u32 cycle) (.addr member)))

/-- Key used by `mark_payout_received` / `has_received_payout`:
`(symbol_short!("PAYOUT"), group_id, member)`. -/
def payoutKey (group_id : Nat) (member : Address) : SVal :=
  .pr (.sym "PAYOUT") (.pr (.u64 group_id) (.addr member))

/-- Modelled from the spec: the crate's build profile (its `Cargo.toml` is
not among the sources at hand) decides Rust's behaviour on `u64` overflow;
per the spec the implementation must reject/trap rather than silently wrap,
so checked addition returns `none` (a trap) outside the `u64` range. -/
def u64_checked_add (a b : Nat) : Option Nat :=
  if a + b < 2 ^ 64 then some (a + b) else none

/-- `get_next_group_id` from `storage.rs`: read the instance counter
(default 0), add one, persist, return the new value.  `none` is the
overflow trap. -/
def get_next_group_id (s : Store) : Option (Nat × Store) :=
  match u64_checked_add ((s.inst "GCOUNTER").getD 0) 1 with
  | none => none
  | some next =>
      some (next,
        { s with inst := fun k => if k = "GCOUNTER" then some next else s.inst k })

/-- `store_group` from `storage.rs`. -/
def store_group (s : Store) (group_id : Nat) (g : Group) : Store :=
  { s with persist := fun k =>
      if k = groupKey group_id then some (.vGroup g) else s.persist k }

/-- `get_group` from `storage.rs`. -/
def get_group (s : Store) (group_id : Nat) : Option Group :=
  match s.persist (groupKey group_id) with
  | some (.vGroup g) => some g
  | _ => none

/-- `remove_group` from `storage.rs`. -/
def remove_group (s : Store) (group_id : Nat) : Store :=
  { s with persist := fun k =>
      if k = groupKey group_id then none else s.persist k }

/-- `store_contribution` from `storage.rs`. -/
def store_contribution (s : Store) (group_id cycle : Nat) (member : Address)
    (paid : Bool) : Store :=
  { s with persist := fun k =>
      if k = contribKey group_id cycle member then some (.vBool paid)
      else s.persist k }

/-- `has_contributed` from `storage.rs`: `get(..).unwrap_or(false)`. -/
def has_contributed (s : Store) (group_id cycle : Nat) (member : Address) : Bool :=
  match s.persist (contribKey group_id cycle member) with
  | some (.vBool b) => b
  | _ => false

/-- `mark_payout_received` from `storage.rs`: always writes `true`. -/
def mark_payout_received (s : Store) (group_id : Nat) (member : Address) : Store :=
  { s with persist := fun k =>
      if k = payoutKey group_id member then some (.vBool true) else s.persist k }

/-- `has_received_payout` from `storage.rs`: `get(..).unwrap_or(false)`. -/
def has_received_payout (s : Store) (group_id : Nat) (member : Address) : Bool :=
  match s.persist (payoutKey group_id member) with
  | some (.vBool b) => b
  | _ => false

/-- `get_cycle_contributions` from `storage.rs`: iterate the member list in
order, pairing each member with its `has_contributed` flag. -/
def get_cycle_contributions (s : Store) (group_id cycle : Nat) :
    List Address → List (Address × Bool)
  | [] => []
  | member :: rest =>
      (member, has_contributed s group_id cycle member)
        :: get_cycle_contributions s group_id cycle rest

/-! ## Pure helpers from `utils.rs` -/

/-- `is_member` from `utils.rs`: linear scan with early return. -/
def is_member (members : List Address) (address : Address) : Bool :=
  match members with
  | [] => false
  | member :: rest => if member = address then true else is_member rest address

/-- Loop body of `all_members_contributed`: early `return false` on the
first member without a contribution. -/
def all_contributed_from (s : Store) (group_id cycle : Nat) :
    List Address → Bool
  | [] => true
  | member :: rest =>
      if has_contributed s group_id cycle member then
        all_contributed_from s group_id cycle rest
      else false

/-- `all_members_contributed` from `utils.rs`. -/
def all_members_contributed (s : Store) (g : Group) : Bool :=
  all_contributed_from s g.id g.current_cycle g.members

/-- Smallest `i128` value. -/
def i128_min : Int := -(2 ^ 127)

/-- Largest `i128` value. -/
def i128_max : Int := 2 ^ 127 - 1

/-- Modelled from the spec: the crate's build profile (its `Cargo.toml` is
not among the sources at hand) decides Rust's behaviour on `i128` overflow;
per spec section 4.5 multiplication must reject/trap rather than silently
wrap, so checked multiplication returns `none` (a trap) outside the `i128`
range. -/
def i128_checked_mul (a b : Int) : Option Int :=
  if i128_min ≤ a * b ∧ a * b ≤ i128_max then some (a * b) else none

/-- `calculate_payout_amount` from `utils.rs`:
`contribution_amount * (members.len() as i128)`. -/
def calculate_payout_amount (g : Group) : Option Int :=
  i128_checked_mul g.contribution_amount (g.members.length : Int)

/-- `validate_group_params` from `utils.rs`. -/
def validate_group_params (amount : Int) (duration : Nat) (max_members : Nat) :
    Except AjoError Unit :=
  if amount = 0 then .error .ContributionAmountZero
  else if amount < 0 then .error .ContributionAmountNegative
  else if duration = 0 then .error .CycleDurationZero
  else if max_members < 2 then .error .MaxMembersBelowMinimum
  else .ok ()

/-! ## The `StorageKey` enum and its `to_symbol` encoder from `storage.rs` -/

/-- The `StorageKey` enum from `storage.rs`. -/
inductive StorageKey where
  | groupCounter : StorageKey
  | group : Nat → StorageKey
  | contribution : Nat → Nat → Address → StorageKey
  | payoutReceived : Nat → Address → StorageKey
deriving DecidableEq, Repr

/-- `StorageKey::to_symbol` from `storage.rs`: each variant maps to a short
symbol; the id, cycle and member components are dropped. -/
def StorageKey.to_symbol : StorageKey → String
  | .groupCounter => "GCOUNTER"
  | .group _ => "GROUP"
  | .contribution _ _ _ => "CONTRIB"
  | .payoutReceived _ _ => "PAYOUT"

/-! ## Lifecycle operations

The contract entry points live in `src/contracts/ajo/src/lib.rs`, which is
not among the sources at hand; they are modelled from spec section 4.6 and
the tests.  `Outcome.trap` is a host panic (a Rust overflow or
out-of-bounds index aborting the transaction with no state change). -/

/-- Result of one contract call: success, a typed business error, or a
host trap. -/
inductive Outcome (α : Type) where
  | ok : α → Outcome α
  | err : AjoError → Outcome α
  | trap : Outcome α
deriving DecidableEq, Repr

/-- Modelled from the spec: `create_group` from `lib.rs` (not among the
sources at hand), per spec section 4.6 — validate parameters, allocate a
fresh id, store the initial `Group` with `members = [creator]` and
`current_cycle = 1`. -/
def create_group (s : Store) (now : Nat) (creator : Address) (amount : Int)
    (duration : Nat) (max_members : Nat) : Outcome (Nat × Store) :=
  match validate_group_params amount duration max_members with
  | .error e => .err e
  | .ok _ =>
    match get_next_group_id s with
    | none => .trap
    | some (group_id, s1) =>
        let g : Group :=
          { id := group_id, creator := creator, members := [creator],
            contribution_amount := amount, cycle_duration := duration,
            max_members := max_members, current_cycle := 1,
            cycle_start_time := now, is_complete := false,
            is_cancelled := false }
        .ok (group_id, store_group s1 group_id g)

/-- Modelled from the spec: `join_group` from `lib.rs` (not among the
sources at hand), per spec section 4.6 — guards `GroupComplete`,
`AlreadyMember`, `GroupFull` in that order, then appends the member. -/
def join_group (s : Store) (member : Address) (group_id : Nat) : Outcome Store :=
  match get_group s group_id with
  | none => .err .GroupNotFound
  | some g =>
    if g.is_complete then .err .GroupComplete
    else if is_member g.members member then .err .AlreadyMember
    else if g.max_members ≤ g.members.length then .err .GroupFull
    else .ok (store_group s group_id { g with members := g.members ++ [member] })

/-- Modelled from the spec: `contribute` from `lib.rs` (not among the
sources at hand), per spec section 4.6 — guards `GroupComplete`,
`NotMember`, `AlreadyContributed` in that order, then records the
contribution as `true`. -/
def contribute (s : Store) (member : Address) (group_id : Nat) : Outcome Store :=
  match get_group s group_id with
  | none => .err .GroupNotFound
  | some g =>
    if g.is_complete then .err .GroupComplete
    else if ¬ is_member g.members member then .err .NotMember
    else if has_contributed s g.id g.current_cycle member then
      .err .AlreadyContributed
    else .ok (store_contribution s g.id g.current_cycle member true)

/-- Modelled from the spec: `execute_payout` from `lib.rs` (not among the
sources at hand), per spec section 4.6 — guards `GroupComplete` and
`IncompleteContributions`, pays `members[current_cycle - 1]`, marks the
payout, advances the cycle, and completes the group after the last
member's cycle. -/
def execute_payout (s : Store) (now : Nat) (group_id : Nat) : Outcome Store :=
  match get_group s group_id with
  | none => .err .GroupNotFound
  | some g =>
    if g.is_complete then .err .GroupComplete
    else if ¬ all_members_contributed s g then .err .IncompleteContributions
    else
      match g.members[g.current_cycle - 1]?, calculate_payout_amount g with
      | some recipient, some _ =>
          let s1 := mark_payout_received s g.id recipient
          let new_cycle := g.current_cycle + 1
          let g' :=
            if new_cycle - 1 = g.members.length then
              { g with current_cycle := new_cycle, is_complete := true }
            else
              { g with current_cycle := new_cycle, cycle_start_time := now }
          .ok (store_group s1 g.id g')
      | _, _ => .trap

/-- Modelled from the spec: `cancel_group` from `lib.rs` (not among the
sources at hand), per spec section 4.6 and the tests in
`cancel_group_tests.rs` — guard `Unauthorized` for a non-creator first,
then `GroupComplete` for a terminal group, else set both terminal flags. -/
def cancel_group (s : Store) (caller : Address) (group_id : Nat) : Outcome Store :=
  match get_group s group_id with
  | none => .err .GroupNotFound
  | some g =>
    if caller ≠ g.creator then .err .Unauthorized
    else if g.is_complete then .err .GroupComplete
    else .ok (store_group s group_id
      { g with is_complete := true, is_cancelled := true })

/-- One public contract call (the program's operations). -/
inductive COp where
  | create (creator : Address) (amount : Int) (duration : Nat) (max_members : Nat)
  | join (member : Address) (group_id : Nat)
  | contrib (member : Address) (group_id : Nat)
  | payout (group_id : Nat)
  | cancel (caller : Address) (group_id : Nat)
deriving DecidableEq, Repr

/-- The storage state after one contract call: errors and traps leave the
state unchanged (all-or-nothing semantics, spec section 4.6). -/
def cstep (now : Nat) (s : Store) : COp → Store
  | .create creator amount duration max_members =>
      match create_group s now creator amount duration max_members with
      | .ok (_, s') => s'
      | _ => s
  | .join member group_id =>
      match join_group s member group_id with
      | .ok s' => s'
      | _ => s
  | .contrib member group_id =>
      match contribute s member group_id with
      | .ok s' => s'
      | _ => s
  | .payout group_id =>
      match execute_payout s now group_id with
      | .ok s' => s'
      | _ => s
  | .cancel caller group_id =>
      match cancel_group s caller group_id with
      | .ok s' => s'
      | _ => s

/-! ## Storage-level call sequences (for the group-id counter) -/

/-- One call to the storage layer of `storage.rs`. -/
inductive StoreOp where
  | nextId
  | putGroup (group_id : Nat) (g : Group)
  | delGroup (group_id : Nat)
  | putContribution (group_id cycle : Nat) (member : Address) (paid : Bool)
  | putPayout (group_id : Nat) (member : Address)
deriving DecidableEq, Repr

/-- One storage call: the next state and the list of group ids it returned
(`none` is the overflow trap of `get_next_group_id`). -/
def sstep (s : Store) : StoreOp → Option (Store × List Nat)
  | .nextId =>
      match get_next_group_id s with
      | none => none
      | some (id, s') => some (s', [id])
  | .putGroup group_id g => some (store_group s group_id g, [])
  | .delGroup group_id => some (remove_group s group_id, [])
  | .putContribution group_id cycle member paid =>
      some (store_contribution s group_id cycle member paid, [])
  | .putPayout group_id member => some (mark_payout_received s group_id member, [])

/-- All group ids returned by `get_next_group_id` along a finite sequence of
storage calls; a trap aborts the rest of the sequence. -/
def runIds (s : Store) : List StoreOp → List Nat
  | [] => []
  | op :: rest =>
      match sstep s op with
      | none => []
      | some (s', ids) => ids ++ runIds s' rest

/-- The persisted counter value (0 when absent). -/
def counterOf (s : Store) : Nat := (s.inst "GCOUNTER").getD 0

/-! ## Key lemmas: the composite keys used by the storage functions -/

theorem groupKey_inj {a b : Nat} (h : groupKey a = groupKey b) : a = b := by
  simpa [groupKey] using h

theorem contribKey_inj {a₁ c₁ : Nat} {m₁ : Address} {a₂ c₂ : Nat} {m₂ : Address}
    (h : contribKey a₁ c₁ m₁ = contribKey a₂ c₂ m₂) :
    a₁ = a₂ ∧ c₁ = c₂ ∧ m₁ = m₂ := by
  simpa [contribKey] using h

theorem payoutKey_inj {a₁ : Nat} {m₁ : Address} {a₂ : Nat} {m₂ : Address}
    (h : payoutKey a₁ m₁ = payoutKey a₂ m₂) : a₁ = a₂ ∧ m₁ = m₂ := by
  simpa [payoutKey] using h

theorem groupKey_ne_contribKey (a b c : Nat) (m : Address) :
    groupKey a ≠ contribKey b c m := by
  simp [groupKey, contribKey]

theorem groupKey_ne_payoutKey (a b : Nat) (m : Address) :
    groupKey a ≠ payoutKey b m := by
  simp [groupKey, payoutKey]

theorem contribKey_ne_payoutKey (a c : Nat) (m : Address) (b : Nat) (m' : Address) :
    contribKey a c m ≠ payoutKey b m' := by
  simp [contribKey, payoutKey]

/-! ## Read-after-write lemmas -/

theorem has_contributed_store_group (s : Store) (i : Nat) (g : Group)
    (a c : Nat) (m : Address) :
    has_contributed (store_group s i g) a c m = has_contributed s a c m := by
  simp [has_contributed, store_group, (groupKey_ne_contribKey i a c m).symm]

theorem has_contributed_remove_group (s : Store) (i : Nat)
    (a c : Nat) (m : Address) :
    has_contributed (remove_group s i) a c m = has_contributed s a c m := by
  simp [has_contributed, remove_group, (groupKey_ne_contribKey i a c m).symm]

theorem has_contributed_mark_payout (s : Store) (i : Nat) (m' : Address)
    (a c : Nat) (m : Address) :
    has_contributed (mark_payout_received s i m') a c m = has_contributed s a c m := by
  simp [has_contributed, mark_payout_received,
    contribKey_ne_payoutKey a c m i m']

theorem has_contributed_store_contribution_same (s : Store) (a c : Nat)
    (m : Address) (p : Bool) :
    has_contributed (store_contribution s a c m p) a c m = p := by
  simp [has_contributed, store_contribution]

theorem has_contributed_store_contribution_other (s : Store)
    (a' c' : Nat) (m' : Address) (p : Bool) (a c : Nat) (m : Address)
    (h : ¬ (a = a' ∧ c = c' ∧ m = m')) :
    has_contributed (store_contribution s a' c' m' p) a c m
      = has_contributed s a c m := by
  have hk : contribKey a c m ≠ contribKey a' c' m' := fun he => h (contribKey_inj he)
  simp [has_contributed, store_contribution, hk]

theorem has_received_payout_store_group (s : Store) (i : Nat) (g : Group)
    (a : Nat) (m : Address) :
    has_received_payout (store_group s i g) a m = has_received_payout s a m := by
  simp [has_received_payout, store_group, (groupKey_ne_payoutKey i a m).symm]

theorem has_received_payout_remove_group (s : Store) (i : Nat)
    (a : Nat) (m : Address) :
    has_received_payout (remove_group s i) a m = has_received_payout s a m := by
  simp [has_received_payout, remove_group, (groupKey_ne_payoutKey i a m).symm]

theorem has_received_payout_store_contribution (s : Store)
    (a' c' : Nat) (m' : Address) (p : Bool) (a : Nat) (m : Address) :
    has_received_payout (store_contribution s a' c' m' p) a m
      = has_received_payout s a m := by
  simp [has_received_payout, store_contribution,
    (contribKey_ne_payoutKey a' c' m' a m).symm]

theorem has_received_payout_mark_payout_same (s : Store) (a : Nat) (m : Address) :
    has_received_payout (mark_payout_received s a m) a m = true := by
  simp [has_received_payout, mark_payout_received]

theorem has_received_payout_mark_payout_other (s : Store) (a' : Nat) (m' : Address)
    (a : Nat) (m : Address) (h : ¬ (a = a' ∧ m = m')) :
    has_received_payout (mark_payout_received s a' m') a m
      = has_received_payout s a m := by
  have hk : payoutKey a m ≠ payoutKey a' m' := fun he => h (payoutKey_inj he)
  simp [has_received_payout, mark_payout_received, hk]

theorem get_group_store_group_same (s : Store) (i : Nat) (g : Group) :
    get_group (store_group s i g) i = some g := by
  simp [get_group, store_group]

theorem get_group_store_group_other (s : Store) (i' : Nat) (g : Group) (i : Nat)
    (h : i ≠ i') : get_group (store_group s i' g) i = get_group s i := by
  have hk : groupKey i ≠ groupKey i' := fun he => h (groupKey_inj he)
  simp [get_group, store_group, hk]

theorem get_group_remove_group_same (s : Store) (i : Nat) :
    get_group (remove_group s i) i = none := by
  simp [get_group, remove_group]

theorem get_group_store_contribution (s : Store) (a c : Nat) (m : Address)
    (p : Bool) (i : Nat) :
    get_group (store_contribution s a c m p) i = get_group s i := by
  simp [get_group, store_contribution, (groupKey_ne_contribKey i a c m)]

theorem get_group_mark_payout (s : Store) (a : Nat) (m : Address) (i : Nat) :
    get_group (mark_payout_received s a m) i = get_group s i := by
  simp [get_group, mark_payout_received, (groupKey_ne_payoutKey i a m)]

theorem persist_get_next_group_id (s : Store) (id : Nat) (s' : Store)
    (h : get_next_group_id s = some (id, s')) : s'.persist = s.persist := by
  unfold get_next_group_id u64_checked_add at h
  split at h
  · exact absurd h (by simp)
  · simp at h
    obtain ⟨_, h2⟩ := h
    rw [← h2]

/-! ## Helper lemmas for the pure helpers -/

theorem all_contributed_from_iff (s : Store) (gid cyc : Nat) (l : List Address) :
    all_contributed_from s gid cyc l = true
      ↔ ∀ m ∈ l, has_contributed s gid cyc m = true := by
  induction l with
  | nil => simp [all_contributed_from]
  | cons m rest ih =>
      cases hc : has_contributed s gid cyc m <;>
        simp [all_contributed_from, hc, ih]

theorem get_cycle_contributions_map (s : Store) (gid cyc : Nat)
    (members : List Address) :
    get_cycle_contributions s gid cyc members
      = members.map (fun m => (m, has_contributed s gid cyc m)) := by
  induction members with
  | nil => rfl
  | cons m rest ih => simp [get_cycle_contributions, ih]

/-- A sample group used by witnesses. -/
def sampleGroup : Group :=
  { id := 1, creator := 7, members := [7, 8],
    contribution_amount := 5, cycle_duration := 60, max_members := 2,
    current_cycle := 1, cycle_start_time := 0,
    is_complete := false, is_cancelled := false }

/-- C4: `validate_group_params` rejects a zero amount, then a negative
amount, then a zero duration, then a member cap below two, and accepts
exactly when the amount and duration are positive and the cap is at least
two; it is a pure function of its three arguments. -/
theorem validate_group_params_spec (amount : Int) (duration max_members : Nat) :
    (amount = 0 →
      validate_group_params amount duration max_members
        = .error .ContributionAmountZero) ∧
    (amount < 0 →
      validate_group_params amount duration max_members
        = .error .ContributionAmountNegative) ∧
    (0 < amount → duration = 0 →
      validate_group_params amount duration max_members
        = .error .CycleDurationZero) ∧
    (0 < amount → 0 < duration → max_members < 2 →
      validate_group_params amount duration max_members
        = .error .MaxMembersBelowMinimum) ∧
    (validate_group_params amount duration max_members = .ok ()
      ↔ 0 < amount ∧ 0 < duration ∧ 2 ≤ max_members) := by
  refine ⟨?_, ?_, ?_, ?_, ?_⟩
  · intro h; simp [validate_group_params, h]
  · intro h
    have h0 : ¬ amount = 0 := by omega
    simp [validate_group_params, h0, h]
  · intro h1 h2
    have h0 : ¬ amount = 0 := by omega
    have hn : ¬ amount < 0 := by omega
    simp [validate_group_params, h0, hn, h2]
  · intro h1 h2 h3
    have h0 : ¬ amount = 0 := by omega
    have hn : ¬ amount < 0 := by omega
    have hd : ¬ duration = 0 := by omega
    simp [validate_group_params, h0, hn, hd, h3]
  · unfold validate_group_params
    split_ifs with h1 h2 h3 h4 <;> simp <;> omega

/-- Witness for C4 at concrete inputs. -/
theorem validate_group_params_spec_witness :
    validate_group_params 0 5 5 = .error .ContributionAmountZero ∧
    validate_group_params (-3) 5 5 = .error .ContributionAmountNegative ∧
    validate_group_params 1 0 5 = .error .CycleDurationZero ∧
    validate_group_params 1 5 1 = .error .MaxMembersBelowMinimum ∧
    validate_group_params 1 5 2 = .ok () :=
  ⟨(validate_group_params_spec 0 5 5).1 rfl,
   (validate_group_params_spec (-3) 5 5).2.1 (by norm_num),
   (validate_group_params_spec 1 0 5).2.2.1 (by norm_num) rfl,
   (validate_group_params_spec 1 5 1).2.2.2.1 (by norm_num) (by norm_num)
     (by norm_num),
   (validate_group_params_spec 1 5 2).2.2.2.2.mpr
     ⟨by norm_num, by norm_num, by norm_num⟩⟩

/-- C2: `all_members_contributed` is true exactly when every member of the
group has a `has_contributed` entry reading `true` for the group's current
cycle in the given storage state (missing entries read as `false`), and is
false otherwise — the loop returns `false` at the first non-contributing
member. -/
theorem all_members_contributed_iff (s : Store) (g : Group) :
    all_members_contributed s g = true
      ↔ ∀ m ∈ g.members, has_contributed s g.id g.current_cycle m = true :=
  all_contributed_from_iff s g.id g.current_cycle g.members

/-- C1: `calculate_payout_amount` returns exactly
`contribution_amount * members.len()` as a mathematical product whenever
that product fits in `i128`, and traps (returns `none`) whenever it lies
outside the `i128` range, never silently wrapping. -/
theorem calculate_payout_amount_spec (g : Group) :
    (i128_min ≤ g.contribution_amount * (g.members.length : Int) ∧
        g.contribution_amount * (g.members.length : Int) ≤ i128_max →
      calculate_payout_amount g
        = some (g.contribution_amount * (g.members.length : Int))) ∧
    (¬ (i128_min ≤ g.contribution_amount * (g.members.length : Int) ∧
        g.contribution_amount * (g.members.length : Int) ≤ i128_max) →
      calculate_payout_amount g = none) := by
  unfold calculate_payout_amount i128_checked_mul
  constructor <;> intro h <;> simp [h]

/-- Witness for C1: a two-member group with amount 5 pays out 10; a group
whose product exceeds `i128_max` traps. -/
theorem calculate_payout_amount_spec_witness :
    calculate_payout_amount sampleGroup = some 10 ∧
    calculate_payout_amount { sampleGroup with contribution_amount := 2 ^ 127 }
      = none := by
  constructor
  · have h := (calculate_payout_amount_spec sampleGroup).1
      (by norm_num [sampleGroup, i128_min, i128_max])
    simpa [sampleGroup] using h
  · exact (calculate_payout_amount_spec
      { sampleGroup with contribution_amount := 2 ^ 127 }).2
      (by norm_num [sampleGroup, i128_min, i128_max])

/-- C7: `get_group` after `store_group` on the same id returns exactly the
stored group; on an id that was never stored (the empty store) or that was
removed by `remove_group` it returns `none`, distinct from any group
value. -/
theorem group_store_roundtrip (s : Store) (i : Nat) (v : Group) :
    get_group (store_group s i v) i = some v ∧
    get_group (remove_group s i) i = none ∧
    get_group emptyStore i = none :=
  ⟨get_group_store_group_same s i v, get_group_remove_group_same s i,
   by simp [get_group, emptyStore]⟩

/-- C8: a contribution key whose entry was never written reads back
`false`, a payout key whose entry was never written reads back `false`,
and from an empty store the counter behaves as 0 — the first
`get_next_group_id` returns 1. -/
theorem default_reads_spec :
    (∀ (s : Store) (a c : Nat) (m : Address),
      s.persist (contribKey a c m) = none → has_contributed s a c m = false) ∧
    (∀ (s : Store) (a : Nat) (m : Address),
      s.persist (payoutKey a m) = none → has_received_payout s a m = false) ∧
    ((get_next_group_id emptyStore).map Prod.fst = some 1) := by
  refine ⟨?_, ?_, ?_⟩
  · intro s a c m h; simp [has_contributed, h]
  · intro s a m h; simp [has_received_payout, h]
  · simp [get_next_group_id, u64_checked_add, emptyStore]

/-- Witness for C8 at the empty store. -/
theorem default_reads_spec_witness :
    has_contributed emptyStore 3 1 5 = false ∧
    has_received_payout emptyStore 3 5 = false :=
  ⟨default_reads_spec.1 emptyStore 3 1 5 rfl,
   default_reads_spec.2.1 emptyStore 3 5 rfl⟩

/-- C10: `get_cycle_contributions` returns one pair per member, in member
order, pairing each member with its `has_contributed` flag for the given
group and cycle; it only reads the store. -/
theorem get_cycle_contributions_spec (s : Store) (gid cyc : Nat)
    (members : List Address) :
    get_cycle_contributions s gid cyc members
      = members.map (fun m => (m, has_contributed s gid cyc m)) ∧
    (get_cycle_contributions s gid cyc members).length = members.length := by
  refine ⟨get_cycle_contributions_map s gid cyc members, ?_⟩
  rw [get_cycle_contributions_map s gid cyc members]
  simp

/-! ## The key-encoding claim -/

/-- C6 (counterexample): `StorageKey::to_symbol` is not injective — the
distinct storage keys `Group(1)` and `Group(2)` encode to the same
9-character symbol, because `to_symbol` drops the id, cycle and member
components of every variant. -/
theorem to_symbol_not_injective :
    StorageKey.to_symbol (.group 1) = StorageKey.to_symbol (.group 2) ∧
    StorageKey.group 1 ≠ StorageKey.group 2 :=
  ⟨rfl, by decide⟩

/-- C6 (amended): the composite keys the storage functions actually build
— `(GROUP, id)`, `(CONTRIB, id, cycle, member)`, `(PAYOUT, id, member)` —
are componentwise injective and pairwise disjoint, and a contribution
write leaves the instance counter and every other persistent entry
unchanged, so operations on different group ids share no state. -/
theorem storage_keys_amended :
    (∀ a b : Nat, groupKey a = groupKey b → a = b) ∧
    (∀ (a₁ c₁ : Nat) (m₁ : Address) (a₂ c₂ : Nat) (m₂ : Address),
      contribKey a₁ c₁ m₁ = contribKey a₂ c₂ m₂ →
        a₁ = a₂ ∧ c₁ = c₂ ∧ m₁ = m₂) ∧
    (∀ (a₁ : Nat) (m₁ : Address) (a₂ : Nat) (m₂ : Address),
      payoutKey a₁ m₁ = payoutKey a₂ m₂ → a₁ = a₂ ∧ m₁ = m₂) ∧
    (∀ (a b c : Nat) (m : Address), groupKey a ≠ contribKey b c m) ∧
    (∀ (a b : Nat) (m : Address), groupKey a ≠ payoutKey b m) ∧
    (∀ (a c : Nat) (m : Address) (b : Nat) (m' : Address),
      contribKey a c m ≠ payoutKey b m') ∧
    (∀ (s : Store) (a c : Nat) (m : Address) (p : Bool),
      (store_contribution s a c m p).inst = s.inst ∧
      ∀ k, k ≠ contribKey a c m →
        (store_contribution s a c m p).persist k = s.persist k) := by
  refine ⟨fun a b h => groupKey_inj h, fun _ _ _ _ _ _ h => contribKey_inj h,
    fun _ _ _ _ h => payoutKey_inj h, groupKey_ne_contribKey,
    groupKey_ne_payoutKey, contribKey_ne_payoutKey, ?_⟩
  intro s a c m p
  exact ⟨rfl, fun k hk => by simp [store_contribution, hk]⟩

/-- Witness for the amended C6 at concrete keys. -/
theorem storage_keys_amended_witness :
    (store_contribution emptyStore 1 1 5 true).persist (groupKey 1) = none ∧
    3 = 3 :=
  ⟨(storage_keys_amended.2.2.2.2.2.2 emptyStore 1 1 5 true).2 (groupKey 1)
      (by decide),
   storage_keys_amended.1 3 3 rfl⟩

/-! ## The group-id counter -/

theorem counterOf_store_group (s : Store) (i : Nat) (g : Group) :
    counterOf (store_group s i g) = counterOf s := rfl

theorem counterOf_remove_group (s : Store) (i : Nat) :
    counterOf (remove_group s i) = counterOf s := rfl

theorem counterOf_store_contribution (s : Store) (a c : Nat) (m : Address)
    (p : Bool) : counterOf (store_contribution s a c m p) = counterOf s := rfl

theorem counterOf_mark_payout (s : Store) (a : Nat) (m : Address) :
    counterOf (mark_payout_received s a m) = counterOf s := rfl

theorem get_next_group_id_eq (s : Store) (id : Nat) (s' : Store)
    (h : get_next_group_id s = some (id, s')) :
    id = counterOf s + 1 ∧ s'.inst "GCOUNTER" = some id := by
  by_cases hlt : counterOf s + 1 < 2 ^ 64
  · have hd : get_next_group_id s = some (counterOf s + 1,
        { s with inst := fun k =>
            if k = "GCOUNTER" then some (counterOf s + 1) else s.inst k }) := by
      unfold counterOf at hlt ⊢
      unfold get_next_group_id u64_checked_add
      rw [if_pos hlt]
    rw [hd] at h
    injection h with h1
    injection h1 with h2 h3
    subst h2
    subst h3
    exact ⟨rfl, by simp⟩
  · have hd : get_next_group_id s = none := by
      unfold counterOf at hlt
      unfold get_next_group_id u64_checked_add
      rw [if_neg hlt]
    rw [hd] at h
    exact absurd h (by simp)

theorem counterOf_get_next (s : Store) (id : Nat) (s' : Store)
    (h : get_next_group_id s = some (id, s')) : counterOf s' = id := by
  obtain ⟨_, h2⟩ := get_next_group_id_eq s id s' h
  simp [counterOf, h2]

theorem sstep_ids_shape (s : Store) (op : StoreOp) (s' : Store) (ids : List Nat)
    (h : sstep s op = some (s', ids)) : ids = [] ∨ ∃ j, ids = [j] := by
  cases op <;> unfold sstep at h
  · cases hg : get_next_group_id s with
    | none => rw [hg] at h; exact absurd h (by simp)
    | some p =>
        obtain ⟨id, s1⟩ := p
        rw [hg] at h
        injection h with h1
        injection h1 with h2 h3
        exact Or.inr ⟨id, h3.symm⟩
  all_goals
    injection h with h1
    injection h1 with h2 h3
    exact Or.inl h3.symm

theorem sstep_counter (s : Store) (op : StoreOp) (s' : Store) (ids : List Nat)
    (h : sstep s op = some (s', ids)) :
    counterOf s ≤ counterOf s' ∧
    ∀ i ∈ ids, counterOf s < i ∧ i ≤ counterOf s' := by
  cases op <;> unfold sstep at h
  · cases hg : get_next_group_id s with
    | none => rw [hg] at h; exact absurd h (by simp)
    | some p =>
        obtain ⟨id, s1⟩ := p
        rw [hg] at h
        injection h with h1
        injection h1 with h2 h3
        subst h2
        subst h3
        have h1 := (get_next_group_id_eq s id s1 hg).1
        have h2 := counterOf_get_next s id s1 hg
        constructor
        · omega
        · intro i hi
          simp at hi
          omega
  all_goals
    injection h with h1
    injection h1 with h2 h3
    subst h2
    subst h3
    refine ⟨le_of_eq ?_, by simp⟩
    first
      | exact (counterOf_store_group _ _ _).symm
      | exact (counterOf_remove_group _ _).symm
      | exact (counterOf_store_contribution _ _ _ _ _).symm
      | exact (counterOf_mark_payout _ _ _).symm

theorem runIds_lt (ops : List StoreOp) :
    ∀ (s : Store) (i : Nat), i ∈ runIds s ops → counterOf s < i := by
  induction ops with
  | nil => intro s i h; simp [runIds] at h
  | cons op rest ih =>
      intro s i h
      unfold runIds at h
      cases hs : sstep s op with
      | none => rw [hs] at h; simp at h
      | some p =>
          obtain ⟨s', ids⟩ := p
          rw [hs] at h
          simp at h
          obtain ⟨hmono, hids⟩ := sstep_counter s op s' ids hs
          rcases h with hi | hi
          · exact (hids i hi).1
          · exact lt_of_le_of_lt hmono (ih s' i hi)

theorem runIds_pairwise (ops : List StoreOp) :
    ∀ s : Store, List.Pairwise (· < ·) (runIds s ops) := by
  induction ops with
  | nil => intro s; simp [runIds]
  | cons op rest ih =>
      intro s
      unfold runIds
      cases hs : sstep s op with
      | none => simp
      | some p =>
          obtain ⟨s', ids⟩ := p
          obtain ⟨hmono, hids⟩ := sstep_counter s op s' ids hs
          rw [List.pairwise_append]
          refine ⟨?_, ih s', ?_⟩
          · rcases sstep_ids_shape s op s' ids hs with h | ⟨j, h⟩ <;>
              subst h <;> simp
          · intro a ha b hb
            have hb' := runIds_lt rest s' b hb
            have ha' := (hids a ha).2
            omega

/-- C3: `get_next_group_id` returns the persisted counter (0 when absent)
plus one and persists that value; along every finite sequence of storage
calls — including group removals — the returned ids are strictly
increasing, hence pairwise distinct. -/
theorem next_group_id_spec :
    (∀ (s : Store) (id : Nat) (s' : Store),
      get_next_group_id s = some (id, s') →
        id = counterOf s + 1 ∧ s'.inst "GCOUNTER" = some id) ∧
    (∀ (s : Store) (ops : List StoreOp),
      List.Pairwise (· < ·) (runIds s ops)) ∧
    (∀ (s : Store) (ops : List StoreOp), (runIds s ops).Nodup) :=
  ⟨get_next_group_id_eq,
   fun s ops => runIds_pairwise ops s,
   fun s ops => (runIds_pairwise ops s).imp Nat.ne_of_lt⟩

/-- The storage state after the first `get_next_group_id` call on an empty
store. -/
def firstIdStore : Store :=
  ⟨fun k => if k = "GCOUNTER" then some 1 else none, fun _ => none⟩

/-- Witness for C3: the first call on an empty store returns id 1 and
persists 1. -/
theorem next_group_id_spec_witness :
    1 = counterOf emptyStore + 1 ∧ firstIdStore.inst "GCOUNTER" = some 1 :=
  next_group_id_spec.1 emptyStore 1 firstIdStore rfl

/-! ## Shapes of the lifecycle operations -/

theorem has_contributed_congr (s₁ s₂ : Store) (h : s₁.persist = s₂.persist)
    (a c : Nat) (m : Address) :
    has_contributed s₁ a c m = has_contributed s₂ a c m := by
  unfold has_contributed; rw [h]

theorem has_received_payout_congr (s₁ s₂ : Store) (h : s₁.persist = s₂.persist)
    (a : Nat) (m : Address) :
    has_received_payout s₁ a m = has_received_payout s₂ a m := by
  unfold has_received_payout; rw [h]

theorem create_group_ok_shape (s : Store) (now : Nat) (cr : Address) (am : Int)
    (du mm gid : Nat) (s' : Store)
    (h : create_group s now cr am du mm = .ok (gid, s')) :
    ∃ (g : Group) (s1 : Store),
      get_next_group_id s = some (gid, s1) ∧ s' = store_group s1 gid g := by
  unfold create_group at h
  cases hv : validate_group_params am du mm with
  | error e => rw [hv] at h; simp at h
  | ok u =>
      rw [hv] at h
      cases hn : get_next_group_id s with
      | none => rw [hn] at h; simp at h
      | some p =>
          obtain ⟨id, s1⟩ := p
          rw [hn] at h
          injection h with h1
          injection h1 with h2 h3
          subst h2
          exact ⟨_, s1, rfl, h3.symm⟩

theorem join_group_ok_shape (s : Store) (member : Address) (gid : Nat)
    (s' : Store) (h : join_group s member gid = .ok s') :
    ∃ (g : Group) (g' : Group),
      get_group s gid = some g ∧ s' = store_group s gid g' := by
  unfold join_group at h
  cases hg : get_group s gid with
  | none => rw [hg] at h; simp at h
  | some g =>
      rw [hg] at h
      by_cases h1 : g.is_complete
      · simp [h1] at h
      · by_cases h2 : is_member g.members member
        · simp [h1, h2] at h
        · by_cases h3 : g.max_members ≤ g.members.length
          · simp [h1, h2, h3] at h
          · simp [h1, h2, h3] at h
            exact ⟨g, _, rfl, h.symm⟩

theorem contribute_ok_shape (s : Store) (member : Address) (gid : Nat)
    (s' : Store) (h : contribute s member gid = .ok s') :
    ∃ g : Group, get_group s gid = some g ∧
      s' = store_contribution s g.id g.current_cycle member true := by
  unfold contribute at h
  cases hg : get_group s gid with
  | none => rw [hg] at h; simp at h
  | some g =>
      rw [hg] at h
      by_cases h1 : g.is_complete
      · simp [h1] at h
      · by_cases h2 : is_member g.members member
        · by_cases h3 : has_contributed s g.id g.current_cycle member
          · simp [h1, h2, h3] at h
          · simp [h1, h2, h3] at h
            exact ⟨g, rfl, h.symm⟩
        · simp [h1, h2] at h

theorem execute_payout_ok_shape (s : Store) (now gid : Nat) (s' : Store)
    (h : execute_payout s now gid = .ok s') :
    ∃ (g : Group) (r : Address) (g' : Group),
      get_group s gid = some g ∧
      s' = store_group (mark_payout_received s g.id r) g.id g' := by
  unfold execute_payout at h
  cases hg : get_group s gid with
  | none => rw [hg] at h; simp at h
  | some g =>
      rw [hg] at h
      by_cases h1 : g.is_complete
      · simp [h1] at h
      · by_cases h2 : all_members_contributed s g
        · cases hr : g.members[g.current_cycle - 1]? with
          | none => simp [h1, h2, hr] at h
          | some r =>
              cases hp : calculate_payout_amount g with
              | none => simp [h1, h2, hr, hp] at h
              | some amt =>
                  simp [h1, h2, hr, hp] at h
                  exact ⟨g, r, _, rfl, h.symm⟩
        · simp [h1, h2] at h

theorem cancel_group_ok_shape (s : Store) (caller : Address) (gid : Nat)
    (s' : Store) (h : cancel_group s caller gid = .ok s') :
    ∃ g : Group, get_group s gid = some g ∧
      s' = store_group s gid
        { g with is_complete := true, is_cancelled := true } := by
  unfold cancel_group at h
  cases hg : get_group s gid with
  | none => rw [hg] at h; simp at h
  | some g =>
      rw [hg] at h
      by_cases h1 : caller = g.creator
      · by_cases h2 : g.is_complete
        · simp [h1, h2] at h
        · simp [h1, h2] at h
          exact ⟨g, rfl, h.symm⟩
      · simp [h1] at h

/-- C5: no contract operation ever resets a stored contribution flag from
`true` back to `false`, and none ever unsets a stored payout-received
flag: both are monotone under every `cstep`. -/
theorem flags_monotone_spec (now : Nat) (s : Store) (op : COp) :
    (∀ (a c : Nat) (m : Address), has_contributed s a c m = true →
      has_contributed (cstep now s op) a c m = true) ∧
    (∀ (a : Nat) (m : Address), has_received_payout s a m = true →
      has_received_payout (cstep now s op) a m = true) := by
  cases op with
  | create cr am du mm =>
      simp only [cstep]
      cases hr : create_group s now cr am du mm with
      | ok p =>
          obtain ⟨gid, s'⟩ := p
          obtain ⟨g, s1, hn, hs'⟩ := create_group_ok_shape s now cr am du mm gid s' hr
          subst hs'
          have hp := persist_get_next_group_id s gid s1 hn
          constructor
          · intro a c m hm
            rw [has_contributed_store_group, has_contributed_congr s1 s hp]
            exact hm
          · intro a m hm
            rw [has_received_payout_store_group, has_received_payout_congr s1 s hp]
            exact hm
      | err e => exact ⟨fun _ _ _ hm => hm, fun _ _ hm => hm⟩
      | trap => exact ⟨fun _ _ _ hm => hm, fun _ _ hm => hm⟩
  | join member gid =>
      simp only [cstep]
      cases hr : join_group s member gid with
      | ok s' =>
          obtain ⟨g, g', hg, hs'⟩ := join_group_ok_shape s member gid s' hr
          subst hs'
          exact ⟨fun a c m hm => by rw [has_contributed_store_group]; exact hm,
            fun a m hm => by rw [has_received_payout_store_group]; exact hm⟩
      | err e => exact ⟨fun _ _ _ hm => hm, fun _ _ hm => hm⟩
      | trap => exact ⟨fun _ _ _ hm => hm, fun _ _ hm => hm⟩
  | contrib member gid =>
      simp only [cstep]
      cases hr : contribute s member gid with
      | ok s' =>
          obtain ⟨g, hg, hs'⟩ := contribute_ok_shape s member gid s' hr
          subst hs'
          constructor
          · intro a c m hm
            by_cases hk : a = g.id ∧ c = g.current_cycle ∧ m = member
            · obtain ⟨k1, k2, k3⟩ := hk
              subst k1; subst k2; subst k3
              exact has_contributed_store_contribution_same _ _ _ _ _
            · rw [has_contributed_store_contribution_other s g.id
                g.current_cycle member true a c m hk]
              exact hm
          · intro a m hm
            rw [has_received_payout_store_contribution]
            exact hm
      | err e => exact ⟨fun _ _ _ hm => hm, fun _ _ hm => hm⟩
      | trap => exact ⟨fun _ _ _ hm => hm, fun _ _ hm => hm⟩
  | payout gid =>
      simp only [cstep]
      cases hr : execute_payout s now gid with
      | ok s' =>
          obtain ⟨g, r, g', hg, hs'⟩ := execute_payout_ok_shape s now gid s' hr
          subst hs'
          constructor
          · intro a c m hm
            rw [has_contributed_store_group, has_contributed_mark_payout]
            exact hm
          · intro a m hm
            rw [has_received_payout_store_group]
            by_cases hk : a = g.id ∧ m = r
            · obtain ⟨k1, k2⟩ := hk
              subst k1; subst k2
              exact has_received_payout_mark_payout_same _ _ _
            · rw [has_received_payout_mark_payout_other s g.id r a m hk]
              exact hm
      | err e => exact ⟨fun _ _ _ hm => hm, fun _ _ hm => hm⟩
      | trap => exact ⟨fun _ _ _ hm => hm, fun _ _ hm => hm⟩
  | cancel caller gid =>
      simp only [cstep]
      cases hr : cancel_group s caller gid with
      | ok s' =>
          obtain ⟨g, hg, hs'⟩ := cancel_group_ok_shape s caller gid s' hr
          subst hs'
          exact ⟨fun a c m hm => by rw [has_contributed_store_group]; exact hm,
            fun a m hm => by rw [has_received_payout_store_group]; exact hm⟩
      | err e => exact ⟨fun _ _ _ hm => hm, fun _ _ hm => hm⟩
      | trap => exact ⟨fun _ _ _ hm => hm, fun _ _ hm => hm⟩

/-- Witness for C5: an already-recorded contribution and payout survive a
rejected cancel call. -/
theorem flags_monotone_spec_witness :
    has_contributed
      (cstep 0 (store_contribution emptyStore 1 1 7 true) (.cancel 9 1)) 1 1 7
      = true ∧
    has_received_payout
      (cstep 0 (mark_payout_received emptyStore 1 7) (.cancel 9 1)) 1 7
      = true :=
  ⟨(flags_monotone_spec 0 (store_contribution emptyStore 1 1 7 true)
      (.cancel 9 1)).1 1 1 7 (by decide),
   (flags_monotone_spec 0 (mark_payout_received emptyStore 1 7)
      (.cancel 9 1)).2 1 7 (by decide)⟩

/-- C9: on an existing group, `cancel_group` by any non-creator fails with
`Unauthorized` regardless of the group's state; by the creator it fails
with `GroupComplete` whenever `is_complete` is already set — whether the
group completed normally or was previously cancelled, with no distinct
already-cancelled error — and otherwise succeeds, storing the group with
both `is_complete` and `is_cancelled` set. -/
theorem cancel_group_guards (s : Store) (gid : Nat) (g : Group)
    (caller : Address) (hg : get_group s gid = some g) :
    (caller ≠ g.creator → cancel_group s caller gid = .err .Unauthorized) ∧
    (caller = g.creator → g.is_complete = true →
      cancel_group s caller gid = .err .GroupComplete) ∧
    (caller = g.creator → g.is_complete = false →
      cancel_group s caller gid
        = .ok (store_group s gid
            { g with is_complete := true, is_cancelled := true })) := by
  unfold cancel_group
  rw [hg]
  refine ⟨?_, ?_, ?_⟩
  · intro h1; simp [h1]
  · intro h1 h2; simp [h1, h2]
  · intro h1 h2; simp [h1, h2]

/-- Witness for C9: a stranger's cancel is `Unauthorized`; the creator's
cancel of a fresh group succeeds; the creator's re-cancel of a cancelled
group is `GroupComplete`. -/
theorem cancel_group_guards_witness :
    cancel_group (store_group emptyStore 1 sampleGroup) 9 1
      = .err .Unauthorized ∧
    cancel_group (store_group emptyStore 1 sampleGroup) 7 1
      = .ok (store_group (store_group emptyStore 1 sampleGroup) 1
          { sampleGroup with is_complete := true, is_cancelled := true }) ∧
    cancel_group (store_group emptyStore 1
        { sampleGroup with is_complete := true, is_cancelled := true }) 7 1
      = .err .GroupComplete :=
  ⟨(cancel_group_guards (store_group emptyStore 1 sampleGroup) 1 sampleGroup 9
      (get_group_store_group_same emptyStore 1 sampleGroup)).1 (by decide),
   (cancel_group_guards (store_group emptyStore 1 sampleGroup) 1 sampleGroup 7
      (get_group_store_group_same emptyStore 1 sampleGroup)).2.2 rfl rfl,
   (cancel_group_guards (store_group emptyStore 1
        { sampleGroup with is_complete := true, is_cancelled := true }) 1
      { sampleGroup with is_complete := true, is_cancelled := true } 7
      (get_group_store_group_same emptyStore 1
        { sampleGroup with is_complete := true, is_cancelled := true })).2.1
      rfl rfl⟩

end Ajo
